import Mathlib

/-! # Render target context: antialiasing decision, capability queries, deferred instantiation

A shallow embedding of `include/gpu/GrRenderTargetContext.h` and of the GPU test
`tests/PrimitiveProcessorTest.cpp`.

* `const` member functions are pure functions of the context.
* Non-`const` member functions (`decideAAType`, `accessRenderTarget`, `asTexture`) pass the
  context explicitly and return the context they leave behind.
* Raw and smart pointers that may be null are `Option`s; dereferencing a null pointer is the
  fault `Fault.nullDereference`.
* C++ `int` values are `Int`. The one arithmetic operation on them in the embedded code, the
  sum `attribCnt+1` of the test, is `addInt`, which wraps at the range of `int`.
-/

namespace Skia

/-! ## Types declared outside the embedded files -/

/-- The caller's antialiasing request (`GrAA`). -/
inductive GrAA where
  | kYes
  | kNo
deriving DecidableEq

/-- The decided antialiasing strategy (`GrAAType`). -/
inductive GrAAType where
  | kNone
  | kCoverage
  | kMSAA
  | kMixedSamples
deriving DecidableEq

/-- A pixel configuration, kept as its enumerator value. -/
structure GrPixelConfig where
  value : Nat
deriving DecidableEq

/-- A surface origin, kept as its enumerator value. -/
structure GrSurfaceOrigin where
  value : Nat
deriving DecidableEq

/-- A colour space object, kept as its identity. -/
structure SkColorSpace where
  id : Nat
deriving DecidableEq

/-- A colour space transform object, kept as its identity. -/
structure GrColorSpaceXform where
  id : Nat
deriving DecidableEq

/-- Surface properties (`SkSurfaceProps`): flags and pixel geometry. -/
structure SkSurfaceProps where
  fFlags : Nat
  fPixelGeometry : Nat
deriving DecidableEq

/-- Instancing capability information cached by the context. -/
structure GrInstancedPipelineInfo where
  fIsMultisampled : Bool
  fIsMixedSampled : Bool
deriving DecidableEq

/-- The description of a surface: dimensions, pixel format, sample count and origin. -/
structure GrSurfaceDesc where
  fOrigin : GrSurfaceOrigin
  fWidth : Int
  fHeight : Int
  fConfig : GrPixelConfig
  fSampleCnt : Int
deriving DecidableEq

/-- A live texture, kept as its identity. -/
structure GrTexture where
  fUniqueID : Nat
deriving DecidableEq

/-- A live render target. `fTexture` is what `GrRenderTarget::asTexture()` returns: the target
seen as a texture, or null when the target is not a texture. -/
structure GrRenderTarget where
  fUniqueID : Nat
  fDesc : GrSurfaceDesc
  fTexture : Option GrTexture
deriving DecidableEq

/-- The result of `GrRenderTarget::asTexture()`. -/
def GrRenderTarget.asTexture (rt : GrRenderTarget) : Option GrTexture :=
  rt.fTexture

/-- Modelled from the spec: the render target handle (`GrRenderTargetProxy`, declared in
`private/GrRenderTargetProxy.h`, which is not among the embedded files). The spec's data model
gives it width, height, pixel format, sample count, origin (here `fDesc`), the
stencil-multisample flag, the multisample and mixed-sample flags of the capability queries, and
the lazily bound live target (`fTarget`, null until instantiated). -/
structure GrRenderTargetProxy where
  fDesc : GrSurfaceDesc
  fStencilBufferMultisampled : Bool
  fUnifiedMultisampled : Bool
  fMixedSampled : Bool
  fTarget : Option GrRenderTarget
deriving DecidableEq

namespace GrRenderTargetProxy

/-- Modelled from the spec: capability read of the stencil-multisample flag. -/
def isStencilBufferMultisampled (p : GrRenderTargetProxy) : Bool := p.fStencilBufferMultisampled

/-- Modelled from the spec: capability read of the uniform-multisampling flag. -/
def isUnifiedMultisampled (p : GrRenderTargetProxy) : Bool := p.fUnifiedMultisampled

/-- Modelled from the spec: capability read of the mixed-sample flag. -/
def isMixedSampled (p : GrRenderTargetProxy) : Bool := p.fMixedSampled

/-- Modelled from the spec: capability read of the surface description. -/
def desc (p : GrRenderTargetProxy) : GrSurfaceDesc := p.fDesc

/-- Modelled from the spec: capability read of the width. -/
def width (p : GrRenderTargetProxy) : Int := p.fDesc.fWidth

/-- Modelled from the spec: capability read of the height. -/
def height (p : GrRenderTargetProxy) : Int := p.fDesc.fHeight

/-- Modelled from the spec: capability read of the pixel format. -/
def config (p : GrRenderTargetProxy) : GrPixelConfig := p.fDesc.fConfig

/-- Modelled from the spec: capability read of the sample count. -/
def numColorSamples (p : GrRenderTargetProxy) : Int := p.fDesc.fSampleCnt

/-- Modelled from the spec: capability read of the origin. -/
def origin (p : GrRenderTargetProxy) : GrSurfaceOrigin := p.fDesc.fOrigin

end GrRenderTargetProxy

/-- Modelled from the spec: the capability provider's allocator of backend storage
(`GrTextureProvider`, not among the embedded files). A request is satisfiable when its pixel
format is supported and its sample count does not exceed the supported maximum; every
allocation is counted and gets a fresh identity. -/
structure GrTextureProvider where
  fSupportedConfigs : List GrPixelConfig
  fMaxSampleCount : Int
  fNumAllocations : Nat
deriving DecidableEq

/-- Modelled from the spec: allocation of backend storage for a render target. It fails with a
null result when the format or sample count is unsatisfiable and never substitutes another
format or sample count: the target it returns carries exactly the requested description. -/
def GrTextureProvider.createRenderTarget (tp : GrTextureProvider) (desc : GrSurfaceDesc) :
    Option GrRenderTarget × GrTextureProvider :=
  if desc.fConfig ∈ tp.fSupportedConfigs ∧ desc.fSampleCnt ≤ tp.fMaxSampleCount then
    (some { fUniqueID := tp.fNumAllocations, fDesc := desc,
            fTexture := some { fUniqueID := tp.fNumAllocations } },
     { tp with fNumAllocations := tp.fNumAllocations + 1 })
  else
    (none, tp)

/-- Modelled from the spec: `GrRenderTargetProxy::instantiate` (not among the embedded files).
It allocates backend storage on the first call and caches it in the handle, returns the cached
target on every later call, and returns null, leaving the handle uninstantiated, when the
allocation fails. -/
def GrRenderTargetProxy.instantiate (p : GrRenderTargetProxy) (tp : GrTextureProvider) :
    Option GrRenderTarget × GrRenderTargetProxy × GrTextureProvider :=
  match p.fTarget with
  | some rt => (some rt, p, tp)
  | none =>
    match tp.createRenderTarget p.fDesc with
    | (some rt, tp1) => (some rt, { p with fTarget := some rt }, tp1)
    | (none, tp1) => (none, p, tp1)

/-! ## Ops, op lists and the GPU statistics -/

/-- The type of a vertex attribute. -/
inductive GrVertexAttribType where
  | kFloat
  | kVec2f
  | kVec3f
  | kVec4f
deriving DecidableEq

/-- A vertex attribute declared by a geometry processor. -/
structure Attribute where
  fName : String
  fType : GrVertexAttribType
deriving DecidableEq

/-- Modelled from the spec: the geometry program of a draw op, which declares its vertex
attributes. -/
structure GrGeometryProcessor where
  fAttribs : List Attribute
deriving DecidableEq

/-- Modelled from the spec: the vertex-attribute count a geometry program requires. -/
def GrGeometryProcessor.numAttribs (gp : GrGeometryProcessor) : Int :=
  gp.fAttribs.length

/-- Modelled from the spec: one recorded unit of work, with the geometry program its prepare
step records. -/
structure GrDrawOp where
  fName : String
  fGeometryProcessor : GrGeometryProcessor
deriving DecidableEq

/-- Modelled from the spec: the backend statistics, successful draws and failed draws tallied
separately. -/
structure GrGpuStats where
  fNumDraws : Nat
  fNumFailedDraws : Nat
deriving DecidableEq

namespace GrGpuStats

/-- The number of successful draws. -/
def numDraws (s : GrGpuStats) : Nat := s.fNumDraws

/-- The number of failed draws. -/
def numFailedDraws (s : GrGpuStats) : Nat := s.fNumFailedDraws

/-- Tally one successful draw. -/
def incNumDraws (s : GrGpuStats) : GrGpuStats := { s with fNumDraws := s.fNumDraws + 1 }

/-- Tally one failed draw. -/
def incNumFailedDraws (s : GrGpuStats) : GrGpuStats :=
  { s with fNumFailedDraws := s.fNumFailedDraws + 1 }

/-- Reset both counters. -/
def reset (_s : GrGpuStats) : GrGpuStats := { fNumDraws := 0, fNumFailedDraws := 0 }

end GrGpuStats

/-- Modelled from the spec: the capability provider's backend limits. -/
structure GrCaps where
  fMaxVertexAttributes : Int
deriving DecidableEq

/-- The backend's maximum number of vertex attributes. -/
def GrCaps.maxVertexAttributes (caps : GrCaps) : Int := caps.fMaxVertexAttributes

/-- Modelled from the spec: submission of one prepared op with capability validation
immediately before it. An op whose geometry program requires more vertex attributes than the
backend's maximum is rejected: it is not executed, and it is tallied as a failed draw. Any
other op is executed and tallied as a successful draw. The Boolean is the success result. -/
def GrGpuStats.draw (stats : GrGpuStats) (caps : GrCaps) (op : GrDrawOp) : Bool × GrGpuStats :=
  if op.fGeometryProcessor.numAttribs > caps.maxVertexAttributes then
    (false, stats.incNumFailedDraws)
  else
    (true, stats.incNumDraws)

/-- Modelled from the spec: an ordered, append-only sequence of ops bound to one target, with
its closed flag. -/
structure GrRenderTargetOpList where
  fClosed : Bool
  fRecordedOps : List GrDrawOp
deriving DecidableEq

/-- Modelled from the spec: execution of an op list, the ops in append order. A rejected op
does not stop the execution: the ops after it are still submitted. -/
def GrRenderTargetOpList.executeOps (caps : GrCaps) :
    List GrDrawOp → GrGpuStats → GrGpuStats
  | [], stats => stats
  | op :: ops, stats => GrRenderTargetOpList.executeOps caps ops (stats.draw caps op).2

/-- Modelled from the spec: the coordinator of all op lists recorded since the last flush. -/
structure GrDrawingManager where
  fOpLists : List GrRenderTargetOpList
deriving DecidableEq

/-- Modelled from the spec: flush of the drawing manager. Each op list, in order, is closed and
executed; afterwards no op list is left. -/
def GrDrawingManager.executeLists (caps : GrCaps) :
    List GrRenderTargetOpList → GrGpuStats → GrGpuStats
  | [], stats => stats
  | l :: ls, stats =>
    GrDrawingManager.executeLists caps ls
      (GrRenderTargetOpList.executeOps caps l.fRecordedOps stats)

/-- Modelled from the spec: the rendering context, with its capability provider, its allocator,
the backend statistics and the drawing manager. -/
structure GrContext where
  fCaps : GrCaps
  fTextureProvider : GrTextureProvider
  fStats : GrGpuStats
  fDrawingManager : GrDrawingManager
deriving DecidableEq

namespace GrContext

/-- The capability provider of the context. -/
def caps (c : GrContext) : GrCaps := c.fCaps

/-- The allocator of the context. -/
def textureProvider (c : GrContext) : GrTextureProvider := c.fTextureProvider

/-- Modelled from the spec: `GrContext::flush`. All recorded work becomes backend submissions,
and the op lists are gone afterwards. -/
def flush (c : GrContext) : GrContext :=
  { c with
    fStats := GrDrawingManager.executeLists c.fCaps c.fDrawingManager.fOpLists c.fStats
    fDrawingManager := { fOpLists := [] } }

/-- Modelled from the spec: `GrContext::resetGpuStats`. -/
def resetGpuStats (c : GrContext) : GrContext :=
  { c with fStats := c.fStats.reset }

end GrContext

/-! ## The render target context -/

/-- The data members of `GrRenderTargetContext`. `fContext` is inherited from
`GrSurfaceContext`; the drawing manager is the one of `fContext`; `fOpList`, the cached op list
reference, is the position of the op list in the drawing manager, or null. -/
structure GrRenderTargetContext where
  fContext : GrContext
  fRenderTargetProxy : GrRenderTargetProxy
  fOpList : Option Nat
  fInstancedPipelineInfo : GrInstancedPipelineInfo
  fColorSpace : Option SkColorSpace
  fColorXformFromSRGB : Option GrColorSpaceXform
  fSurfaceProps : SkSurfaceProps
deriving DecidableEq

/-- A fault of the program, as opposed to a failure it reports. -/
inductive Fault where
  | nullDereference
deriving DecidableEq

/-- The signature of `GrRenderTargetProxy::instantiate`: from the handle and the allocator to
the live target or null, and the handle and the allocator it leaves behind. -/
abbrev Instantiate : Type :=
  GrRenderTargetProxy → GrTextureProvider →
    Option GrRenderTarget × GrRenderTargetProxy × GrTextureProvider

namespace GrRenderTargetContext

/-- `bool isStencilBufferMultisampled() const`. -/
def isStencilBufferMultisampled (self : GrRenderTargetContext) : Bool :=
  self.fRenderTargetProxy.isStencilBufferMultisampled

/-- `bool isUnifiedMultisampled() const`. -/
def isUnifiedMultisampled (self : GrRenderTargetContext) : Bool :=
  self.fRenderTargetProxy.isUnifiedMultisampled

/-- `bool hasMixedSamples() const`. -/
def hasMixedSamples (self : GrRenderTargetContext) : Bool :=
  self.fRenderTargetProxy.isMixedSampled

/-- `const GrCaps* caps() const`. -/
def caps (self : GrRenderTargetContext) : GrCaps := self.fContext.caps

/-- `const GrSurfaceDesc& desc() const`. -/
def desc (self : GrRenderTargetContext) : GrSurfaceDesc := self.fRenderTargetProxy.desc

/-- `int width() const`. -/
def width (self : GrRenderTargetContext) : Int := self.fRenderTargetProxy.width

/-- `int height() const`. -/
def height (self : GrRenderTargetContext) : Int := self.fRenderTargetProxy.height

/-- `GrPixelConfig config() const`. -/
def config (self : GrRenderTargetContext) : GrPixelConfig := self.fRenderTargetProxy.config

/-- `int numColorSamples() const`. -/
def numColorSamples (self : GrRenderTargetContext) : Int :=
  self.fRenderTargetProxy.numColorSamples

/-- `bool isGammaCorrect() const`: `SkToBool(fColorSpace.get())`. -/
def isGammaCorrect (self : GrRenderTargetContext) : Bool := self.fColorSpace.isSome

/-- `const SkSurfaceProps& surfaceProps() const`. -/
def surfaceProps (self : GrRenderTargetContext) : SkSurfaceProps := self.fSurfaceProps

/-- `SkColorSpace* getColorSpace() const`. -/
def getColorSpace (self : GrRenderTargetContext) : Option SkColorSpace := self.fColorSpace

/-- `GrColorSpaceXform* getColorXformFromSRGB() const`. -/
def getColorXformFromSRGB (self : GrRenderTargetContext) : Option GrColorSpaceXform :=
  self.fColorXformFromSRGB

/-- `GrSurfaceOrigin origin() const`. -/
def origin (self : GrRenderTargetContext) : GrSurfaceOrigin := self.fRenderTargetProxy.origin

/-- `GrRenderTarget* accessRenderTarget()`:
`return fRenderTargetProxy->instantiate(fContext->textureProvider());`. The proxy's
`instantiate` is a parameter; the call may change the proxy and the allocator. -/
def accessRenderTarget (instantiate : Instantiate) (self : GrRenderTargetContext) :
    Option GrRenderTarget × GrRenderTargetContext :=
  match instantiate self.fRenderTargetProxy self.fContext.textureProvider with
  | (rt, proxy, tp) =>
    (rt, { self with
           fRenderTargetProxy := proxy
           fContext := { self.fContext with fTextureProvider := tp } })

/-- `sk_sp<GrTexture> asTexture()`. The first `accessRenderTarget()` is the null check; the
result of the second one is dereferenced. -/
def asTexture (instantiate : Instantiate) (self : GrRenderTargetContext) :
    Except Fault (Option GrTexture × GrRenderTargetContext) :=
  match accessRenderTarget instantiate self with
  | (none, self1) => .ok (none, self1)
  | (some _, self1) =>
    match accessRenderTarget instantiate self1 with
    | (none, _) => .error Fault.nullDereference
    | (some rt, self2) => .ok (rt.asTexture, self2)

/-- `inline GrAAType decideAAType(GrAA aa, bool allowMixedSamples = false)`. The member
function is not `const`, so the context it leaves behind is returned with the decision. -/
def decideAAType (self : GrRenderTargetContext) (aa : GrAA) (allowMixedSamples : Bool := false) :
    GrAAType × GrRenderTargetContext :=
  if GrAA.kNo = aa then
    (GrAAType.kNone, self)
  else if self.isUnifiedMultisampled then
    (GrAAType.kMSAA, self)
  else if allowMixedSamples && self.isStencilBufferMultisampled then
    (GrAAType.kMixedSamples, self)
  else
    (GrAAType.kCoverage, self)

/-- Modelled from the spec: the op list with `op` appended to the op list at position `i`. -/
def appendOp (op : GrDrawOp) : Nat → List GrRenderTargetOpList → List GrRenderTargetOpList
  | _, [] => []
  | 0, l :: ls => { l with fRecordedOps := l.fRecordedOps ++ [op] } :: ls
  | i + 1, l :: ls => l :: appendOp op i ls

/-- Modelled from the spec: `getOpList()`. The context resolves to a valid open op list before
appending: the cached one when it is still there and open, otherwise a fresh one, fetched from
the drawing manager and cached. The result is the position of the op list. -/
def getOpList (self : GrRenderTargetContext) : Nat × GrRenderTargetContext :=
  let lists := self.fContext.fDrawingManager.fOpLists
  match self.fOpList.bind (fun i => lists[i]?.bind (fun l => if l.fClosed then none else some i)) with
  | some i => (i, self)
  | none =>
    (lists.length,
     { self with
       fOpList := some lists.length
       fContext := { self.fContext with
                     fDrawingManager :=
                       { fOpLists := lists ++ [{ fClosed := false, fRecordedOps := [] }] } } })

/-- Modelled from the spec: `priv().testingOnly_drawBatch(paint, aaType, op)`, which appends the
op to the op list of the context. -/
def testingOnly_drawBatch (self : GrRenderTargetContext) (op : GrDrawOp) :
    GrRenderTargetContext :=
  match self.getOpList with
  | (i, self1) =>
    { self1 with
      fContext := { self1.fContext with
                    fDrawingManager :=
                      { fOpLists := appendOp op i self1.fContext.fDrawingManager.fOpLists } } }

/-- The call `context->flush()` of the test, on the context the render target context shares. -/
def flushContext (self : GrRenderTargetContext) : GrRenderTargetContext :=
  { self with fContext := self.fContext.flush }

/-- The call `context->resetGpuStats()` of the test, on the context the render target context
shares. -/
def resetContextGpuStats (self : GrRenderTargetContext) : GrRenderTargetContext :=
  { self with fContext := self.fContext.resetGpuStats }

/-- The statistics `context->getGpu()->stats()` the test reads. -/
def gpuStats (self : GrRenderTargetContext) : GrGpuStats := self.fContext.fStats

/-- The four-rule ordered table of the antialiasing decision, in the words of the
specification: (1) the caller requests none: none; (2) the target has uniform multisampling:
MSAA; (3) the caller opts into mixed samples and the target supports stencil multisampling:
mixed samples; (4) else: coverage. -/
def aaDecisionTable (requestsNone uniformMultisampling optsIntoMixedSamples
    stencilMultisampling : Bool) : GrAAType :=
  match requestsNone, uniformMultisampling, optsIntoMixedSamples, stencilMultisampling with
  | true, _, _, _ => GrAAType.kNone
  | false, true, _, _ => GrAAType.kMSAA
  | false, false, true, true => GrAAType.kMixedSamples
  | false, false, _, _ => GrAAType.kCoverage

end GrRenderTargetContext

/-! ## Capability queries as steps on the context -/

/-- The capability queries of the render target context. -/
inductive CapabilityQuery where
  | isStencilBufferMultisampled
  | isUnifiedMultisampled
  | hasMixedSamples
  | desc
  | width
  | height
  | config
  | numColorSamples
  | origin
  | isGammaCorrect
  | surfaceProps
  | getColorSpace
deriving DecidableEq

/-- The value a capability query returns. -/
inductive QueryValue where
  | bool (b : Bool)
  | int (i : Int)
  | desc (d : GrSurfaceDesc)
  | config (c : GrPixelConfig)
  | origin (o : GrSurfaceOrigin)
  | surfaceProps (p : SkSurfaceProps)
  | colorSpace (cs : Option SkColorSpace)
deriving DecidableEq

/-- One capability query as a step: the value the member function returns and the context it
leaves behind. The member functions are `const`, and the proxy accessors they call are reads. -/
def CapabilityQuery.run (q : CapabilityQuery) (ctx : GrRenderTargetContext) :
    QueryValue × GrRenderTargetContext :=
  match q with
  | .isStencilBufferMultisampled => (.bool ctx.isStencilBufferMultisampled, ctx)
  | .isUnifiedMultisampled => (.bool ctx.isUnifiedMultisampled, ctx)
  | .hasMixedSamples => (.bool ctx.hasMixedSamples, ctx)
  | .desc => (.desc ctx.desc, ctx)
  | .width => (.int ctx.width, ctx)
  | .height => (.int ctx.height, ctx)
  | .config => (.config ctx.config, ctx)
  | .numColorSamples => (.int ctx.numColorSamples, ctx)
  | .origin => (.origin ctx.origin, ctx)
  | .isGammaCorrect => (.bool ctx.isGammaCorrect, ctx)
  | .surfaceProps => (.surfaceProps ctx.surfaceProps, ctx)
  | .getColorSpace => (.colorSpace ctx.getColorSpace, ctx)

/-- A sequence of capability queries, run in order: the values returned and the context left
behind. -/
def CapabilityQuery.runAll :
    List CapabilityQuery → GrRenderTargetContext → List QueryValue × GrRenderTargetContext
  | [], ctx => ([], ctx)
  | q :: qs, ctx =>
    match q.run ctx with
    | (v, ctx1) =>
      match CapabilityQuery.runAll qs ctx1 with
      | (vs, ctx2) => (v :: vs, ctx2)

/-! ## Concrete contexts -/

/-- A 1 x 1 surface description without multisampling. -/
def exampleDesc : GrSurfaceDesc :=
  { fOrigin := { value := 1 }, fWidth := 1, fHeight := 1, fConfig := { value := 6 },
    fSampleCnt := 0 }

/-- A 640 x 480 surface description with four samples per pixel. -/
def exampleDescMultisampled : GrSurfaceDesc :=
  { fOrigin := { value := 2 }, fWidth := 640, fHeight := 480, fConfig := { value := 3 },
    fSampleCnt := 4 }

/-- A rendering context whose backend allows 16 vertex attributes and supports the pixel
format of `exampleDesc`, with nothing recorded and nothing allocated. -/
def exampleGrContext : GrContext :=
  { fCaps := { fMaxVertexAttributes := 16 }
    fTextureProvider :=
      { fSupportedConfigs := [{ value := 6 }], fMaxSampleCount := 8, fNumAllocations := 0 }
    fStats := { fNumDraws := 0, fNumFailedDraws := 0 }
    fDrawingManager := { fOpLists := [] } }

/-- A render target context on a deferred, not yet instantiated handle that the backend can
satisfy: no multisampling, no colour space. -/
def exampleContext : GrRenderTargetContext :=
  { fContext := exampleGrContext
    fRenderTargetProxy :=
      { fDesc := exampleDesc, fStencilBufferMultisampled := false,
        fUnifiedMultisampled := false, fMixedSampled := false, fTarget := none }
    fOpList := none
    fInstancedPipelineInfo := { fIsMultisampled := false, fIsMixedSampled := false }
    fColorSpace := none
    fColorXformFromSRGB := none
    fSurfaceProps := { fFlags := 0, fPixelGeometry := 0 } }

/-- A render target context on a deferred handle whose sample count the backend cannot
satisfy, so that its instantiation fails. -/
def exampleContextUnsatisfiable : GrRenderTargetContext :=
  { exampleContext with
    fRenderTargetProxy :=
      { fDesc := { exampleDesc with fSampleCnt := 64 }, fStencilBufferMultisampled := true,
        fUnifiedMultisampled := true, fMixedSampled := false, fTarget := none } }

/-- A render target context on a uniformly multisampled handle with a multisampled stencil
buffer. -/
def exampleContextMultisampled : GrRenderTargetContext :=
  { exampleContext with
    fRenderTargetProxy :=
      { fDesc := exampleDescMultisampled, fStencilBufferMultisampled := true,
        fUnifiedMultisampled := true, fMixedSampled := false, fTarget := none } }

/-- A render target context on a mixed-sampled handle: a multisampled stencil buffer without
uniform multisampling, with a colour space, another surface size and recorded work. -/
def exampleContextMixedSampled : GrRenderTargetContext :=
  { fContext :=
      { exampleGrContext with
        fDrawingManager :=
          { fOpLists := [{ fClosed := false,
                           fRecordedOps := [{ fName := "clear",
                                              fGeometryProcessor := { fAttribs := [] } }] }] } }
    fRenderTargetProxy :=
      { fDesc := exampleDescMultisampled, fStencilBufferMultisampled := true,
        fUnifiedMultisampled := false, fMixedSampled := true, fTarget := none }
    fOpList := some 0
    fInstancedPipelineInfo := { fIsMultisampled := false, fIsMixedSampled := true }
    fColorSpace := some { id := 7 }
    fColorXformFromSRGB := none
    fSurfaceProps := { fFlags := 1, fPixelGeometry := 2 } }

/-- A render target context that differs from `exampleContextMixedSampled` in everything but
what `isUnifiedMultisampled` and `isStencilBufferMultisampled` return. -/
def exampleContextStencilOnly : GrRenderTargetContext :=
  { exampleContext with
    fRenderTargetProxy :=
      { fDesc := exampleDesc, fStencilBufferMultisampled := true,
        fUnifiedMultisampled := false, fMixedSampled := false, fTarget := none } }

/-- An op whose geometry program declares the given number of attributes of type `kVec2f`,
all named alike. -/
def exampleOp (numAttribs : Nat) : GrDrawOp :=
  { fName := "example"
    fGeometryProcessor :=
      { fAttribs := List.replicate numAttribs { fName := "attr", fType := .kVec2f } } }

/-! ## The test op of `tests/PrimitiveProcessorTest.cpp` -/

/-- Modelled from the spec: `GrPrimitiveProcessor::addVertexAttrib` (not among the embedded
files), by which a geometry program declares one more vertex attribute, after the ones it has
declared so far. -/
def GrGeometryProcessor.addVertexAttrib (gp : GrGeometryProcessor) (name : String)
    (type : GrVertexAttribType) : GrGeometryProcessor :=
  { gp with fAttribs := gp.fAttribs ++ [{ fName := name, fType := type }] }

/-- The abort of a debug build at an `SkASSERT` whose condition is false. -/
inductive Abort where
  | assertFailed
deriving DecidableEq

/-- The geometry processor `GP` the test op builds: a `GrGeometryProcessor` with the array
`fAttribNames` of its attribute names. -/
structure GP extends GrGeometryProcessor where
  fAttribNames : List String
deriving DecidableEq

/-- The name `printf("attr%d", i)` writes, for a loop index `i`, which is never negative. -/
def GP.attribName (i : Nat) : String :=
  "attr" ++ toString i

/-- The constructor `GP(int numAttribs)`, in a build with `SkASSERT` enabled:
`SkASSERT(numAttribs > 1)`, then the loop that pushes the names `attr<i>` for
`i = 0 .. numAttribs - 1` to `fAttribNames`, then the loop that calls
`addVertexAttrib(fAttribNames[i].c_str(), kVec2f_GrVertexAttribType)` for the same `i`.
A loop `for (auto i = 0; i < numAttribs; ++i)` runs over `List.range numAttribs.toNat`; an index
into `fAttribNames` is within the array, the default of `getD` is never read. -/
def GP.new (numAttribs : Int) : Except Abort GP :=
  if numAttribs > 1 then
    let fAttribNames : List String :=
      (List.range numAttribs.toNat).foldl (fun names i => names ++ [GP.attribName i]) []
    let base : GrGeometryProcessor :=
      (List.range numAttribs.toNat).foldl
        (fun gp i => gp.addVertexAttrib (fAttribNames.getD i "") GrVertexAttribType.kVec2f)
        { fAttribs := [] }
    Except.ok { toGrGeometryProcessor := base, fAttribNames := fAttribNames }
  else
    Except.error Abort.assertFailed

/-- The member `name()` of `GP`. -/
def GP.name (_gp : GP) : String := "Dummy GP"

/-- The member `getGLSLProcessorKey` of `GP`: `builder->add32(this->numAttribs())`. The key
builder is declared outside the embedded files: its `add32` is a parameter, and the `int` count
reaches it converted to `uint32_t`. -/
def GP.getGLSLProcessorKey {β : Type} (gp : GP) (add32 : Nat → β → β) (builder : β) : β :=
  add32 (gp.numAttribs % 4294967296).toNat builder

/-- The test op `Batch`, with its one data member. -/
structure Batch where
  fNumAttribs : Int
deriving DecidableEq

/-- The constructor `Batch(int numAttribs)`; the bounds it sets are the same for every op. -/
def Batch.new (numAttribs : Int) : Batch :=
  { fNumAttribs := numAttribs }

/-- The member `name()` of `Batch`. -/
def Batch.name (_b : Batch) : String := "Dummy Batch"

/-- The member `onCombineIfPossible` of `Batch`: the op never combines with another. -/
def Batch.onCombineIfPossible (_b _that : Batch) : Bool := false

/-- The member `onPrepareDraws` of `Batch`: it builds `GP(fNumAttribs)` and records one quad
drawn with it. The result is the geometry processor of the recorded draw. -/
def Batch.onPrepareDraws (b : Batch) : Except Abort GP :=
  GP.new b.fNumAttribs

/-- The sum of two `int` values as the machine computes it: within the range of `int`
(from -2147483648 to 2147483647) it is the sum, beyond the range it wraps around. -/
def addInt (a b : Int) : Int :=
  (a + b + 2147483648) % 4294967296 - 2147483648

/-- The two ops the test `VertexAttributeCount` draws, from
`int attribCnt = context->caps()->maxVertexAttributes()`: none when the guard `if (!attribCnt)`
returns from the test, otherwise `Batch(attribCnt)` and `Batch(attribCnt+1)`, the sum being a
sum of `int`s. -/
def VertexAttributeCount.batches (attribCnt : Int) : Option (Batch × Batch) :=
  if attribCnt = 0 then
    none
  else
    some (Batch.new attribCnt, Batch.new (addInt attribCnt 1))

/-! ## The antialiasing decision -/

/-- C1: a request of no antialiasing (`GrAA::kNo`) is decided as `GrAAType::kNone`, for every
render target context, whatever `isUnifiedMultisampled` and `isStencilBufferMultisampled`
return, and for both values of `allowMixedSamples`. -/
theorem decideAAType_kNo (ctx : GrRenderTargetContext) (allowMixedSamples : Bool) :
    (ctx.decideAAType GrAA.kNo allowMixedSamples).1 = GrAAType.kNone := by
  simp [GrRenderTargetContext.decideAAType]

/-- C2: on a context whose `isUnifiedMultisampled` is true, every request other than
`GrAA::kNo` is decided as `GrAAType::kMSAA`, for both values of `allowMixedSamples` and both
values of `isStencilBufferMultisampled`; in particular the decision is neither `kMixedSamples`
nor `kCoverage`. -/
theorem decideAAType_unifiedMultisampled (ctx : GrRenderTargetContext) (aa : GrAA)
    (allowMixedSamples : Bool) (hUnified : ctx.isUnifiedMultisampled = true)
    (hAA : aa ≠ GrAA.kNo) :
    (ctx.decideAAType aa allowMixedSamples).1 = GrAAType.kMSAA ∧
    (ctx.decideAAType aa allowMixedSamples).1 ≠ GrAAType.kMixedSamples ∧
    (ctx.decideAAType aa allowMixedSamples).1 ≠ GrAAType.kCoverage := by
  have h : GrAA.kNo ≠ aa := fun e => hAA e.symm
  simp [GrRenderTargetContext.decideAAType, h, hUnified]

/-- C3: the decision is `GrAAType::kMixedSamples` exactly when the request is not `GrAA::kNo`,
`isUnifiedMultisampled` is false, `allowMixedSamples` is true and
`isStencilBufferMultisampled` is true. -/
theorem decideAAType_kMixedSamples_iff (ctx : GrRenderTargetContext) (aa : GrAA)
    (allowMixedSamples : Bool) :
    (ctx.decideAAType aa allowMixedSamples).1 = GrAAType.kMixedSamples ↔
      (aa ≠ GrAA.kNo ∧ ctx.isUnifiedMultisampled = false ∧ allowMixedSamples = true ∧
        ctx.isStencilBufferMultisampled = true) := by
  cases aa <;> cases allowMixedSamples <;>
    cases hU : ctx.isUnifiedMultisampled <;>
    cases hS : ctx.isStencilBufferMultisampled <;>
    simp [GrRenderTargetContext.decideAAType, hU, hS]

/-- C4: the decision is `GrAAType::kCoverage` exactly when the request is not `GrAA::kNo`,
`isUnifiedMultisampled` is false, and `allowMixedSamples` and `isStencilBufferMultisampled`
are not both true; and the decision is always the entry of the four-rule ordered table. -/
theorem decideAAType_kCoverage_iff_and_table (ctx : GrRenderTargetContext) (aa : GrAA)
    (allowMixedSamples : Bool) :
    ((ctx.decideAAType aa allowMixedSamples).1 = GrAAType.kCoverage ↔
      (aa ≠ GrAA.kNo ∧ ctx.isUnifiedMultisampled = false ∧
        ¬ (allowMixedSamples = true ∧ ctx.isStencilBufferMultisampled = true))) ∧
    (ctx.decideAAType aa allowMixedSamples).1 =
      GrRenderTargetContext.aaDecisionTable (decide (aa = GrAA.kNo)) ctx.isUnifiedMultisampled
        allowMixedSamples ctx.isStencilBufferMultisampled := by
  cases aa <;> cases allowMixedSamples <;>
    cases hU : ctx.isUnifiedMultisampled <;>
    cases hS : ctx.isStencilBufferMultisampled <;>
    simp [GrRenderTargetContext.decideAAType, GrRenderTargetContext.aaDecisionTable, hU, hS]

/-- C9: with the argument `allowMixedSamples` omitted (its default is false), the decision is
one of `kNone`, `kMSAA` and `kCoverage` and never `kMixedSamples`, for every request and every
target configuration, a multisampled stencil buffer included. -/
theorem decideAAType_default_not_kMixedSamples (ctx : GrRenderTargetContext) (aa : GrAA) :
    ((ctx.decideAAType aa).1 = GrAAType.kNone ∨ (ctx.decideAAType aa).1 = GrAAType.kMSAA ∨
      (ctx.decideAAType aa).1 = GrAAType.kCoverage) ∧
    (ctx.decideAAType aa).1 ≠ GrAAType.kMixedSamples := by
  cases aa <;>
    cases hU : ctx.isUnifiedMultisampled <;>
    simp [GrRenderTargetContext.decideAAType, hU]

/-- C10: the decision depends only on the request, on `allowMixedSamples` and on what
`isUnifiedMultisampled` and `isStencilBufferMultisampled` return: two contexts that agree on
these two queries decide alike, whatever else they hold; and the call leaves the context as it
was. -/
theorem decideAAType_depends_only_on_flags (ctx1 ctx2 : GrRenderTargetContext) (aa : GrAA)
    (allowMixedSamples : Bool)
    (hUnified : ctx1.isUnifiedMultisampled = ctx2.isUnifiedMultisampled)
    (hStencil : ctx1.isStencilBufferMultisampled = ctx2.isStencilBufferMultisampled) :
    (ctx1.decideAAType aa allowMixedSamples).1 = (ctx2.decideAAType aa allowMixedSamples).1 ∧
    (ctx1.decideAAType aa allowMixedSamples).2 = ctx1 ∧
    (ctx2.decideAAType aa allowMixedSamples).2 = ctx2 := by
  cases aa <;> cases allowMixedSamples <;>
    cases hU : ctx2.isUnifiedMultisampled <;>
    cases hS : ctx2.isStencilBufferMultisampled <;>
    simp [GrRenderTargetContext.decideAAType, hUnified, hStencil, hU, hS]

/-! ## Capability validation at flush -/

/-- An op within the backend's limit is executed and tallied as a successful draw. -/
theorem GrGpuStats.draw_of_le (stats : GrGpuStats) (caps : GrCaps) (op : GrDrawOp)
    (h : op.fGeometryProcessor.numAttribs ≤ caps.maxVertexAttributes) :
    (stats.draw caps op).2 = stats.incNumDraws := by
  simp [GrGpuStats.draw, Int.not_lt.mpr h]

/-- An op beyond the backend's limit is rejected and tallied as a failed draw. -/
theorem GrGpuStats.draw_of_lt (stats : GrGpuStats) (caps : GrCaps) (op : GrDrawOp)
    (h : caps.maxVertexAttributes < op.fGeometryProcessor.numAttribs) :
    (stats.draw caps op).2 = stats.incNumFailedDraws := by
  simp [GrGpuStats.draw, h]

/-- Recording one op when no op list is left and flushing submits exactly that op. -/
theorem flushContext_testingOnly_drawBatch (ctx : GrRenderTargetContext) (op : GrDrawOp)
    (hNone : ctx.fContext.fDrawingManager.fOpLists = []) :
    (ctx.testingOnly_drawBatch op).flushContext.gpuStats =
      (ctx.gpuStats.draw ctx.caps op).2 := by
  cases hOp : ctx.fOpList <;>
    simp [GrRenderTargetContext.testingOnly_drawBatch, GrRenderTargetContext.getOpList,
      GrRenderTargetContext.flushContext, GrRenderTargetContext.gpuStats,
      GrRenderTargetContext.caps, GrRenderTargetContext.appendOp, GrContext.flush,
      GrContext.caps, GrDrawingManager.executeLists, GrRenderTargetOpList.executeOps, hNone, hOp]

/-- C5: on a backend whose `maxVertexAttributes` is `N`, non-zero, after a flush and a reset of
the statistics: drawing one op whose geometry processor declares exactly `N` vertex attributes
and flushing leaves `numDraws = 1` and `numFailedDraws = 0`; after another reset, drawing an op
that declares `N + 1` attributes and flushing leaves `numDraws = 0` and `numFailedDraws = 1`,
and that flush completes: it leaves no op list behind. -/
theorem vertexAttributeCount_stats (ctx : GrRenderTargetContext) (N : Int) (op1 op2 : GrDrawOp)
    (hMax : ctx.fContext.caps.maxVertexAttributes = N) (_hN : N ≠ 0)
    (h1 : op1.fGeometryProcessor.numAttribs = N)
    (h2 : op2.fGeometryProcessor.numAttribs = N + 1) :
    (ctx.flushContext.resetContextGpuStats.gpuStats.numDraws = 0 ∧
      ctx.flushContext.resetContextGpuStats.gpuStats.numFailedDraws = 0) ∧
    (((ctx.flushContext.resetContextGpuStats.testingOnly_drawBatch op1).flushContext
        ).gpuStats.numDraws = 1 ∧
      ((ctx.flushContext.resetContextGpuStats.testingOnly_drawBatch op1).flushContext
        ).gpuStats.numFailedDraws = 0) ∧
    ((((ctx.flushContext.resetContextGpuStats.testingOnly_drawBatch op1).flushContext
        ).resetContextGpuStats.testingOnly_drawBatch op2).flushContext.gpuStats.numDraws = 0 ∧
      (((ctx.flushContext.resetContextGpuStats.testingOnly_drawBatch op1).flushContext
        ).resetContextGpuStats.testingOnly_drawBatch op2).flushContext.gpuStats.numFailedDraws
        = 1 ∧
      (((ctx.flushContext.resetContextGpuStats.testingOnly_drawBatch op1).flushContext
        ).resetContextGpuStats.testingOnly_drawBatch op2
        ).flushContext.fContext.fDrawingManager.fOpLists = []) := by
  have hMax1 : ctx.flushContext.resetContextGpuStats.caps.maxVertexAttributes = N := hMax
  have hMax2 : ((ctx.flushContext.resetContextGpuStats.testingOnly_drawBatch op1).flushContext
      ).resetContextGpuStats.caps.maxVertexAttributes = N := by
    rw [← hMax]
    cases hOp : ctx.fOpList <;>
      simp [GrRenderTargetContext.testingOnly_drawBatch, GrRenderTargetContext.getOpList,
        GrRenderTargetContext.flushContext, GrRenderTargetContext.resetContextGpuStats,
        GrRenderTargetContext.caps, GrContext.flush, GrContext.resetGpuStats, GrContext.caps,
        hOp]
  have hOk : op1.fGeometryProcessor.numAttribs ≤
      ctx.flushContext.resetContextGpuStats.caps.maxVertexAttributes := by
    rw [hMax1, h1]
  have hRejected : ((ctx.flushContext.resetContextGpuStats.testingOnly_drawBatch op1
      ).flushContext).resetContextGpuStats.caps.maxVertexAttributes <
      op2.fGeometryProcessor.numAttribs := by
    rw [hMax2, h2]
    exact Int.lt_succ N
  refine ⟨⟨rfl, rfl⟩, ⟨?_, ?_⟩, ⟨?_, ?_, rfl⟩⟩
  · rw [flushContext_testingOnly_drawBatch _ _ rfl, GrGpuStats.draw_of_le _ _ _ hOk]
    rfl
  · rw [flushContext_testingOnly_drawBatch _ _ rfl, GrGpuStats.draw_of_le _ _ _ hOk]
    rfl
  · rw [flushContext_testingOnly_drawBatch _ _ rfl, GrGpuStats.draw_of_lt _ _ _ hRejected]
    rfl
  · rw [flushContext_testingOnly_drawBatch _ _ rfl, GrGpuStats.draw_of_lt _ _ _ hRejected]
    rfl

/-! ## Capability queries and deferred instantiation -/

/-- A sequence of capability queries leaves the context as it was. -/
theorem CapabilityQuery.runAll_snd (qs : List CapabilityQuery) (ctx : GrRenderTargetContext) :
    (CapabilityQuery.runAll qs ctx).2 = ctx := by
  induction qs with
  | nil => rfl
  | cons q qs ih =>
    have hq : (q.run ctx).2 = ctx := by cases q <;> rfl
    simp only [CapabilityQuery.runAll]
    rw [hq]
    exact ih

/-- The modelled `instantiate` caches: once it has returned a live target, it returns that
target again. -/
theorem GrRenderTargetProxy.instantiate_again (p p1 : GrRenderTargetProxy)
    (tp tp1 : GrTextureProvider) (rt : GrRenderTarget)
    (h : p.instantiate tp = (some rt, p1, tp1)) : (p1.instantiate tp1).1 = some rt := by
  unfold GrRenderTargetProxy.instantiate at h
  cases hT : p.fTarget with
  | some rt0 =>
    simp only [hT, Prod.mk.injEq, Option.some.injEq] at h
    obtain ⟨h1, h2, _⟩ := h
    subst h1 h2
    simp [GrRenderTargetProxy.instantiate, hT]
  | none =>
    simp only [hT] at h
    cases hC : tp.createRenderTarget p.fDesc with
    | mk r tp2 =>
      cases r with
      | none => simp [hC] at h
      | some rt0 =>
        simp only [hC, Prod.mk.injEq, Option.some.injEq] at h
        obtain ⟨h1, h2, _⟩ := h
        subst h1 h2
        simp [GrRenderTargetProxy.instantiate]

/-- C6: each capability query returns the stored value of the proxy or of the context; any
sequence of these queries leaves the whole context, the proxy included, as it was, so a proxy
that is not instantiated is still not instantiated afterwards; whereas `accessRenderTarget`
instantiates the proxy: the target it returns is the target the proxy holds afterwards. -/
theorem capabilityQueries_do_not_instantiate (ctx : GrRenderTargetContext) :
    (ctx.isStencilBufferMultisampled = ctx.fRenderTargetProxy.fStencilBufferMultisampled ∧
      ctx.isUnifiedMultisampled = ctx.fRenderTargetProxy.fUnifiedMultisampled ∧
      ctx.hasMixedSamples = ctx.fRenderTargetProxy.fMixedSampled ∧
      ctx.desc = ctx.fRenderTargetProxy.fDesc ∧
      ctx.width = ctx.fRenderTargetProxy.fDesc.fWidth ∧
      ctx.height = ctx.fRenderTargetProxy.fDesc.fHeight ∧
      ctx.config = ctx.fRenderTargetProxy.fDesc.fConfig ∧
      ctx.numColorSamples = ctx.fRenderTargetProxy.fDesc.fSampleCnt ∧
      ctx.origin = ctx.fRenderTargetProxy.fDesc.fOrigin ∧
      ctx.isGammaCorrect = ctx.fColorSpace.isSome ∧
      ctx.surfaceProps = ctx.fSurfaceProps ∧
      ctx.getColorSpace = ctx.fColorSpace) ∧
    (∀ q : CapabilityQuery, (q.run ctx).2 = ctx) ∧
    (∀ qs : List CapabilityQuery, (CapabilityQuery.runAll qs ctx).2 = ctx) ∧
    (ctx.fRenderTargetProxy.fTarget = none →
      ∀ qs : List CapabilityQuery,
        (CapabilityQuery.runAll qs ctx).2.fRenderTargetProxy.fTarget = none) ∧
    (∀ rt : GrRenderTarget,
      (ctx.accessRenderTarget GrRenderTargetProxy.instantiate).1 = some rt →
        (ctx.accessRenderTarget GrRenderTargetProxy.instantiate).2.fRenderTargetProxy.fTarget =
          some rt) := by
  refine ⟨⟨rfl, rfl, rfl, rfl, rfl, rfl, rfl, rfl, rfl, rfl, rfl, rfl⟩, ?_, ?_, ?_, ?_⟩
  · intro q
    cases q <;> rfl
  · intro qs
    exact CapabilityQuery.runAll_snd qs ctx
  · intro h qs
    rw [CapabilityQuery.runAll_snd qs ctx]
    exact h
  · intro rt h
    unfold GrRenderTargetContext.accessRenderTarget at h ⊢
    unfold GrRenderTargetProxy.instantiate at h ⊢
    cases hT : ctx.fRenderTargetProxy.fTarget with
    | some rt0 =>
      simp only [hT] at h ⊢
      exact h
    | none =>
      simp only [hT] at h ⊢
      cases hC : ctx.fContext.textureProvider.createRenderTarget ctx.fRenderTargetProxy.fDesc with
      | mk r tp2 =>
        cases r with
        | none => simp [hC] at h
        | some rt0 =>
          simp only [hC] at h ⊢
          exact h

/-- C7: when the instantiation of the proxy fails, `asTexture` returns a null texture reference
after the one `accessRenderTarget` call of its null check; it does not dereference the null
render target. -/
theorem asTexture_of_instantiate_null (instantiate : Instantiate) (ctx : GrRenderTargetContext)
    (hFail : (instantiate ctx.fRenderTargetProxy ctx.fContext.textureProvider).1 = none) :
    ctx.asTexture instantiate =
      Except.ok (none, (ctx.accessRenderTarget instantiate).2) := by
  have h : (ctx.accessRenderTarget instantiate).1 = none := by
    simp only [GrRenderTargetContext.accessRenderTarget]
    exact hFail
  unfold GrRenderTargetContext.asTexture
  cases hA : ctx.accessRenderTarget instantiate with
  | mk r ctx1 =>
    rw [hA] at h
    simp only at h
    subst h
    rfl

/-- C8: `asTexture` calls `accessRenderTarget` twice. When repeated instantiation yields the
same live target, and the first call returns a render target, the second call returns that
same render target, so the dereference does not fault, and the result is the `asTexture()` of
the target that passed the null check. -/
theorem asTexture_of_instantiate_same (instantiate : Instantiate) (ctx ctx1 : GrRenderTargetContext)
    (rt : GrRenderTarget)
    (hSame : ∀ (p p1 : GrRenderTargetProxy) (tp tp1 : GrTextureProvider) (t : GrRenderTarget),
      instantiate p tp = (some t, p1, tp1) → (instantiate p1 tp1).1 = some t)
    (hFirst : ctx.accessRenderTarget instantiate = (some rt, ctx1)) :
    (ctx1.accessRenderTarget instantiate).1 = some rt ∧
    ctx.asTexture instantiate =
      Except.ok (rt.asTexture, (ctx1.accessRenderTarget instantiate).2) := by
  have hSecond : (ctx1.accessRenderTarget instantiate).1 = some rt := by
    have hI : instantiate ctx.fRenderTargetProxy ctx.fContext.textureProvider =
        (some rt, ctx1.fRenderTargetProxy, ctx1.fContext.textureProvider) := by
      simp only [GrRenderTargetContext.accessRenderTarget, Prod.mk.injEq] at hFirst
      obtain ⟨h1, h2⟩ := hFirst
      subst h2
      exact Prod.ext h1 rfl
    simp only [GrRenderTargetContext.accessRenderTarget]
    exact hSame _ _ _ _ _ hI
  refine ⟨hSecond, ?_⟩
  unfold GrRenderTargetContext.asTexture
  rw [hFirst]
  cases hB : ctx1.accessRenderTarget instantiate with
  | mk r ctx2 =>
    rw [hB] at hSecond
    simp only at hSecond
    subst hSecond
    simp only [hB]

/-! ## Gamma correctness -/

/-- C11: `isGammaCorrect` returns true exactly when `getColorSpace` returns a colour space that
is not null, for every render target context. -/
theorem isGammaCorrect_iff_getColorSpace (ctx : GrRenderTargetContext) :
    ctx.isGammaCorrect = true ↔ ctx.getColorSpace ≠ none := by
  unfold GrRenderTargetContext.isGammaCorrect GrRenderTargetContext.getColorSpace
  cases ctx.fColorSpace <;> simp

/-! ## The geometry processor of the test op -/

/-- The character of a decimal digit gives the digit back. -/
theorem digitChar_toNat_sub (k : Nat) (h : k < 10) : (Nat.digitChar k).toNat - 48 = k := by
  interval_cases k <;> rfl

/-- Reading the decimal digits that `Nat.toDigitsCore` writes in front of `ds` gives the number
written, when the fuel suffices. -/
theorem foldl_toDigitsCore (fuel : Nat) :
    ∀ (n : Nat) (ds : List Char), n < fuel →
      List.foldl (fun a c => 10 * a + (Char.toNat c - 48)) 0 (Nat.toDigitsCore 10 fuel n ds) =
        List.foldl (fun a c => 10 * a + (Char.toNat c - 48)) n ds := by
  induction fuel with
  | zero => intro n ds h; exact absurd h (Nat.not_lt_zero n)
  | succ fuel ih =>
    intro n ds h
    simp only [Nat.toDigitsCore]
    split
    · rename_i h0
      have hn : n < 10 := by omega
      simp only [List.foldl_cons, Nat.mul_zero, Nat.zero_add]
      rw [digitChar_toNat_sub _ (Nat.mod_lt n (by decide)), Nat.mod_eq_of_lt hn]
    · rename_i h0
      rw [ih (n / 10) _ (by omega)]
      simp only [List.foldl_cons]
      rw [digitChar_toNat_sub _ (Nat.mod_lt n (by decide)), Nat.div_add_mod]

/-- Different loop indices get different attribute names. -/
theorem GP.attribName_injective : Function.Injective GP.attribName := by
  intro a b h
  have hd : (toString a).data = (toString b).data := by
    have h1 := congrArg String.data h
    simp only [GP.attribName, String.data_append] at h1
    exact List.append_cancel_left h1
  have ha := foldl_toDigitsCore (a + 1) a [] (Nat.lt_succ_self a)
  have hb := foldl_toDigitsCore (b + 1) b [] (Nat.lt_succ_self b)
  have hd2 : Nat.toDigitsCore 10 (a + 1) a [] = Nat.toDigitsCore 10 (b + 1) b [] := hd
  rw [hd2, hb] at ha
  simpa using ha.symm

/-- The first loop of the constructor: the names pushed, in order. -/
theorem GP.foldl_push_names (l : List Nat) (names : List String) :
    l.foldl (fun names i => names ++ [GP.attribName i]) names = names ++ l.map GP.attribName := by
  induction l generalizing names with
  | nil => simp
  | cons i l ih => simp [List.foldl_cons, ih]

/-- The second loop of the constructor: the attributes declared, in order. -/
theorem GP.foldl_addVertexAttrib (l : List Nat) (name : Nat → String) (type : GrVertexAttribType)
    (gp : GrGeometryProcessor) :
    (l.foldl (fun gp i => gp.addVertexAttrib (name i) type) gp).fAttribs =
      gp.fAttribs ++ l.map (fun i => { fName := name i, fType := type }) := by
  induction l generalizing gp with
  | nil => simp
  | cons i l ih =>
    rw [List.foldl_cons, ih]
    simp [GrGeometryProcessor.addVertexAttrib]

/-- The attributes of the geometry processor the constructor builds. -/
theorem GP.new_fAttribs (numAttribs : Int) (h : numAttribs > 1) :
    ∃ gp : GP, GP.new numAttribs = Except.ok gp ∧
      gp.fAttribs = (List.range numAttribs.toNat).map
        (fun i => { fName := GP.attribName i, fType := GrVertexAttribType.kVec2f }) := by
  have hNew : GP.new numAttribs = Except.ok
      { toGrGeometryProcessor :=
          (List.range numAttribs.toNat).foldl
            (fun gp i => gp.addVertexAttrib
              (((List.range numAttribs.toNat).foldl
                (fun names i => names ++ [GP.attribName i]) []).getD i "")
              GrVertexAttribType.kVec2f)
            { fAttribs := [] }
        fAttribNames :=
          (List.range numAttribs.toNat).foldl (fun names i => names ++ [GP.attribName i]) [] } := by
    simp only [GP.new, h, if_true]
  refine ⟨_, hNew, ?_⟩
  simp only [GP.foldl_addVertexAttrib, GP.foldl_push_names, List.nil_append]
  apply List.map_congr_left
  intro i hi
  have hi2 : i < numAttribs.toNat := List.mem_range.mp hi
  simp [List.getD_eq_getElem?_getD, hi2]

/-- C12: for every `numAttribs > 1` such that `numAttribs + 1` is an `int`, that is, at most
2147483647, the geometry processor that the op `Batch(numAttribs)` builds in `onPrepareDraws`
declares exactly `numAttribs` vertex attributes, named `attr0` ... `attr<numAttribs-1>` in that
order, pairwise distinct, each of type `kVec2f`, and the value it adds to its processor key is
`numAttribs`; the `int` sum `numAttribs+1` of the test is `numAttribs + 1`, and the op built
with it declares exactly one attribute more. -/
theorem Batch_onPrepareDraws_declares (numAttribs : Int) (h : numAttribs > 1)
    (hInt : numAttribs + 1 ≤ 2147483647) :
    ∃ gp : GP, (Batch.new numAttribs).onPrepareDraws = Except.ok gp ∧
      gp.numAttribs = numAttribs ∧
      gp.fAttribs.map (fun a => a.fName) =
        (List.range numAttribs.toNat).map (fun i => "attr" ++ toString i) ∧
      (gp.fAttribs.map (fun a => a.fName)).Nodup ∧
      (∀ a ∈ gp.fAttribs, a.fType = GrVertexAttribType.kVec2f) ∧
      (∀ (β : Type) (add32 : Nat → β → β) (builder : β),
        gp.getGLSLProcessorKey add32 builder = add32 numAttribs.toNat builder) ∧
      addInt numAttribs 1 = numAttribs + 1 ∧
      ∃ gp1 : GP, (Batch.new (numAttribs + 1)).onPrepareDraws = Except.ok gp1 ∧
        gp1.numAttribs = gp.numAttribs + 1 := by
  obtain ⟨gp, hgp, hA⟩ := GP.new_fAttribs numAttribs h
  obtain ⟨gp1, hgp1, hA1⟩ := GP.new_fAttribs (numAttribs + 1) (by omega)
  have hNames : gp.fAttribs.map (fun a => a.fName) =
      (List.range numAttribs.toNat).map GP.attribName := by
    rw [hA, List.map_map]
    rfl
  have hNum : gp.numAttribs = numAttribs := by
    simp only [GrGeometryProcessor.numAttribs, hA, List.length_map, List.length_range]
    omega
  have hNum1 : gp1.numAttribs = numAttribs + 1 := by
    simp only [GrGeometryProcessor.numAttribs, hA1, List.length_map, List.length_range]
    omega
  have hSum : addInt numAttribs 1 = numAttribs + 1 := by
    unfold addInt
    omega
  refine ⟨gp, hgp, hNum, hNames, ?_, ?_, ?_, hSum, gp1, hgp1, ?_⟩
  · rw [hNames]
    exact (List.nodup_range _).map GP.attribName_injective
  · intro a ha
    rw [hA] at ha
    obtain ⟨i, _, rfl⟩ := List.mem_map.mp ha
    rfl
  · intro β add32 builder
    simp only [GP.getGLSLProcessorKey, hNum]
    congr 2
    omega
  · rw [hNum1, hNum]

/-- Witness of C12: the op `Batch(3)`. -/
theorem Batch_onPrepareDraws_declares_witness :
    (Batch.new 3).onPrepareDraws =
      Except.ok
        { fAttribs := [{ fName := "attr0", fType := GrVertexAttribType.kVec2f },
                       { fName := "attr1", fType := GrVertexAttribType.kVec2f },
                       { fName := "attr2", fType := GrVertexAttribType.kVec2f }]
          fAttribNames := ["attr0", "attr1", "attr2"] } ∧
    ∃ gp : GP, (Batch.new 3).onPrepareDraws = Except.ok gp ∧
      gp.numAttribs = 3 ∧
      gp.fAttribs.map (fun a => a.fName) =
        (List.range (3 : Int).toNat).map (fun i => "attr" ++ toString i) ∧
      (gp.fAttribs.map (fun a => a.fName)).Nodup ∧
      (∀ a ∈ gp.fAttribs, a.fType = GrVertexAttribType.kVec2f) ∧
      (∀ (β : Type) (add32 : Nat → β → β) (builder : β),
        gp.getGLSLProcessorKey add32 builder = add32 (3 : Int).toNat builder) ∧
      addInt 3 1 = 3 + 1 ∧
      ∃ gp1 : GP, (Batch.new (3 + 1)).onPrepareDraws = Except.ok gp1 ∧
        gp1.numAttribs = gp.numAttribs + 1 :=
  ⟨rfl, Batch_onPrepareDraws_declares 3 (by decide) (by decide)⟩

/-- C13, at a backend whose `maxVertexAttributes` is 1: the guard of the test lets the value
through, the test draws `Batch(1)` and `Batch(2)`, and the constructor of the geometry
processor of `Batch(1)` stops at `SkASSERT(numAttribs > 1)`, while the one of `Batch(2)`
passes it. -/
theorem vertexAttributeCount_assert_fires_at_one :
    VertexAttributeCount.batches 1 = some (Batch.new 1, Batch.new 2) ∧
    (Batch.new 1).onPrepareDraws = Except.error Abort.assertFailed ∧
    (∃ gp : GP, (Batch.new 2).onPrepareDraws = Except.ok gp) := by
  refine ⟨rfl, rfl, ?_⟩
  obtain ⟨gp, hgp, _⟩ := GP.new_fAttribs 2 (by decide)
  exact ⟨gp, hgp⟩

/-- Witness of C2: a uniformly multisampled context with a multisampled stencil buffer, a
request of antialiasing, mixed samples allowed. -/
theorem decideAAType_unifiedMultisampled_witness :
    (exampleContextMultisampled.decideAAType GrAA.kYes true).1 = GrAAType.kMSAA ∧
    (exampleContextMultisampled.decideAAType GrAA.kYes true).1 ≠ GrAAType.kMixedSamples ∧
    (exampleContextMultisampled.decideAAType GrAA.kYes true).1 ≠ GrAAType.kCoverage :=
  decideAAType_unifiedMultisampled exampleContextMultisampled GrAA.kYes true (by decide)
    (by decide)

/-- Witness of C10: two contexts that differ in size, pixel format, sample count, mixed
samples, colour space and recorded ops, and agree on the two queries. -/
theorem decideAAType_depends_only_on_flags_witness :
    (exampleContextMixedSampled.decideAAType GrAA.kYes true).1 =
      (exampleContextStencilOnly.decideAAType GrAA.kYes true).1 ∧
    (exampleContextMixedSampled.decideAAType GrAA.kYes true).2 = exampleContextMixedSampled ∧
    (exampleContextStencilOnly.decideAAType GrAA.kYes true).2 = exampleContextStencilOnly :=
  decideAAType_depends_only_on_flags exampleContextMixedSampled exampleContextStencilOnly
    GrAA.kYes true (by decide) (by decide)

/-- Witness of C5: a backend that allows 16 vertex attributes, a context with recorded work
and a cached op list, an op that declares 16 attributes and an op that declares 17. -/
theorem vertexAttributeCount_stats_witness :
    exampleContextMixedSampled.fContext.caps.maxVertexAttributes = 16 ∧
    (exampleOp 16).fGeometryProcessor.numAttribs = 16 ∧
    (exampleOp 17).fGeometryProcessor.numAttribs = 16 + 1 ∧
    (((exampleContextMixedSampled.flushContext.resetContextGpuStats.testingOnly_drawBatch
        (exampleOp 16)).flushContext).gpuStats.numDraws = 1 ∧
      ((exampleContextMixedSampled.flushContext.resetContextGpuStats.testingOnly_drawBatch
        (exampleOp 16)).flushContext).gpuStats.numFailedDraws = 0) ∧
    ((((exampleContextMixedSampled.flushContext.resetContextGpuStats.testingOnly_drawBatch
        (exampleOp 16)).flushContext).resetContextGpuStats.testingOnly_drawBatch
        (exampleOp 17)).flushContext.gpuStats.numDraws = 0 ∧
      (((exampleContextMixedSampled.flushContext.resetContextGpuStats.testingOnly_drawBatch
        (exampleOp 16)).flushContext).resetContextGpuStats.testingOnly_drawBatch
        (exampleOp 17)).flushContext.gpuStats.numFailedDraws = 1 ∧
      (((exampleContextMixedSampled.flushContext.resetContextGpuStats.testingOnly_drawBatch
        (exampleOp 16)).flushContext).resetContextGpuStats.testingOnly_drawBatch
        (exampleOp 17)).flushContext.fContext.fDrawingManager.fOpLists = []) :=
  ⟨rfl, rfl, rfl,
    (vertexAttributeCount_stats exampleContextMixedSampled 16 (exampleOp 16) (exampleOp 17)
      rfl (by decide) rfl rfl).2⟩

/-- Witness of C6: on a context whose proxy is not instantiated, three queries leave the proxy
not instantiated, and `accessRenderTarget` leaves it instantiated with the first allocation. -/
theorem capabilityQueries_do_not_instantiate_witness :
    exampleContext.fRenderTargetProxy.fTarget = none ∧
    (CapabilityQuery.runAll [.numColorSamples, .isStencilBufferMultisampled, .width]
      exampleContext).2.fRenderTargetProxy.fTarget = none ∧
    (exampleContext.accessRenderTarget GrRenderTargetProxy.instantiate
      ).2.fRenderTargetProxy.fTarget =
      some { fUniqueID := 0, fDesc := exampleDesc, fTexture := some { fUniqueID := 0 } } :=
  ⟨rfl,
    (capabilityQueries_do_not_instantiate exampleContext).2.2.2.1 rfl
      [.numColorSamples, .isStencilBufferMultisampled, .width],
    (capabilityQueries_do_not_instantiate exampleContext).2.2.2.2
      { fUniqueID := 0, fDesc := exampleDesc, fTexture := some { fUniqueID := 0 } } (by decide)⟩

/-- Witness of C7: a handle whose sample count the backend cannot satisfy. -/
theorem asTexture_of_instantiate_null_witness :
    (GrRenderTargetProxy.instantiate exampleContextUnsatisfiable.fRenderTargetProxy
      exampleContextUnsatisfiable.fContext.textureProvider).1 = none ∧
    exampleContextUnsatisfiable.asTexture GrRenderTargetProxy.instantiate =
      Except.ok (none,
        (exampleContextUnsatisfiable.accessRenderTarget GrRenderTargetProxy.instantiate).2) :=
  ⟨by decide,
    asTexture_of_instantiate_null GrRenderTargetProxy.instantiate exampleContextUnsatisfiable
      (by decide)⟩

/-- Witness of C8: the modelled `instantiate`, which caches the live target, on a handle the
backend can satisfy. -/
theorem asTexture_of_instantiate_same_witness :
    ((exampleContext.accessRenderTarget GrRenderTargetProxy.instantiate).2.accessRenderTarget
      GrRenderTargetProxy.instantiate).1 =
      some { fUniqueID := 0, fDesc := exampleDesc, fTexture := some { fUniqueID := 0 } } ∧
    exampleContext.asTexture GrRenderTargetProxy.instantiate =
      Except.ok (some { fUniqueID := 0 },
        ((exampleContext.accessRenderTarget GrRenderTargetProxy.instantiate
          ).2.accessRenderTarget GrRenderTargetProxy.instantiate).2) :=
  asTexture_of_instantiate_same GrRenderTargetProxy.instantiate exampleContext
    (exampleContext.accessRenderTarget GrRenderTargetProxy.instantiate).2
    { fUniqueID := 0, fDesc := exampleDesc, fTexture := some { fUniqueID := 0 } }
    GrRenderTargetProxy.instantiate_again (by decide)

end Skia
